import Mathlib

/-!
Verification development for the `cmaes` crate (MenloSystems/cmaes).

The two source files under scrutiny are `src/termination.rs` (the multi-criterion
termination check) and `src/options.rs` (the `CMAESOptions` builder surface).
Floating-point (`f64`) values are embedded as exact rationals (`ℚ`); every
comparison and arithmetic operation of the source is translated literally over
this carrier.  Places where the embedding deliberately abstracts `f64` rounding
are noted next to the definition concerned.
-/

/-- Represents a reason for the algorithm terminating.
Mirrors `TerminationReason` of `src/termination.rs` (lines 17-64), constructor for
constructor. -/
inductive TerminationReason where
  | MaxFunctionEvals
  | MaxGenerations
  | MaxTime
  | FunTarget
  | TolFun
  | TolFunRel
  | TolFunHist
  | TolX
  | Stagnation
  | TolXUp
  | NoEffectAxis
  | NoEffectCoord
  | TolConditionCov
  | InvalidFunctionValue
  | PosDefCov
deriving DecidableEq, Inhabited

/-- One evaluated candidate.  Mirrors `EvaluatedPoint` of `src/sampling.rs`; the
termination check only reads `value()` (its objective function value), and `point`
is the candidate vector. -/
structure EvaluatedPoint where
  point : List ℚ
  value : ℚ
deriving DecidableEq, Inhabited

/-- Immutable run parameters.  Mirrors the accessors of `Parameters`
(`src/parameters.rs`, not under `src/`; the fields are exactly the values the
termination check reads through `self.parameters.*()` in
`src/termination.rs` lines 95-104 and 114-128, and the spec's data model
section 3 lists the same fields). -/
structure Parameters where
  dim : Nat
  lambda : Nat
  initial_sigma : ℚ
  fun_target : ℚ
  tol_fun : ℚ
  tol_fun_rel : ℚ
  tol_fun_hist : ℚ
  tol_x : ℚ
  tol_x_up : ℚ
  tol_condition_cov : ℚ
  max_function_evals : Option Nat
  max_generations : Option Nat
  max_time : Option ℚ
deriving DecidableEq

/-- Mutable search state.  Mirrors the accessors of `State` (`src/state.rs`, not
under `src/`) that `check_termination_criteria` reads (lines 106-111 of
`src/termination.rs`): mean vector, covariance matrix `C`, its eigenvector matrix,
the diagonal of its square-root-eigenvalue matrix (the matrix is diagonal, so only
the diagonal is kept), step size `sigma`, covariance evolution path `path_c`, and
the generation counter. -/
structure State where
  mean : List ℚ
  cov : List (List ℚ)
  cov_eigenvectors : List (List ℚ)
  cov_sqrt_eigenvalues_diag : List ℚ
  sigma : ℚ
  path_c : List ℚ
  generation : Nat
deriving DecidableEq

/-- Entry `(i, j)` of a row-major matrix, `0` out of bounds (in `nalgebra` an
out-of-bounds index panics; all theorems stated about real runs use in-bounds
indices). -/
def matEntry (m : List (List ℚ)) (i j : Nat) : ℚ := (m.getD i []).getD j 0

/-- Maximum of a list, `none` when empty; mirrors the `max_by(partial_cmp)`
iterator pattern of the source (`src/termination.rs` lines 251-256). -/
def listMax : List ℚ → Option ℚ
  | [] => none
  | x :: xs => some (xs.foldl max x)

/-- Minimum of a list, `none` when empty. -/
def listMin : List ℚ → Option ℚ
  | [] => none
  | x :: xs => some (xs.foldl min x)

/-- Modelled from the spec: `utils::range` (`src/utils.rs` is not under `src/`);
the spec (section 4.4) defines the range as max − min of the values, `None` on an
empty sequence (the call sites unwrap it). -/
def range (l : List ℚ) : Option ℚ :=
  match listMax l, listMin l with
  | some hi, some lo => some (hi - lo)
  | _, _ => none

/-- Insert into a sorted list, keeping it sorted ascending. -/
def insertSorted (x : ℚ) : List ℚ → List ℚ
  | [] => [x]
  | y :: ys => if x ≤ y then x :: y :: ys else y :: insertSorted x ys

/-- Sort ascending by repeated insertion. -/
def sortAscending (l : List ℚ) : List ℚ := l.foldr insertSorted []

/-- Modelled from the statrs library (an external dependency, not repository
code): `Data::median` returns the middle order statistic for odd length and the
mean of the two middle order statistics for even length.  For the empty list
statrs yields `NaN` (every `<` comparison against it is false); here the empty
list yields `0`, and the only consumer compares two same-length slices, so both
sides degenerate together and the comparison is false in both models. -/
def median (l : List ℚ) : ℚ :=
  let s := sortAscending l
  let n := l.length
  if n % 2 = 1 then s.getD (n / 2) 0
  else (s.getD (n / 2 - 1) 0 + s.getD (n / 2) 0) / 2

/-- Classifies an `f64` value as normal (not zero, not subnormal, not infinite,
not NaN), transported to exact rationals: a rational is "normal" when it is
nonzero and its magnitude lies in the normal `f64` range.  (`ℚ` has no NaN or
infinity; rationals of enormous magnitude play the role of infinity.) -/
def f64IsNormal (x : ℚ) : Bool :=
  decide (x ≠ 0 ∧ mkRat 1 (2 ^ 1022) ≤ |x| ∧ |x| < mkRat (Int.ofNat (2 ^ 1024)) 1)

/-- Modelled from the spec: `State::axis_ratio` (`src/state.rs` is not under
`src/`); spec section 4.4 defines it as largest / smallest sqrt-eigenvalue.
Division by zero yields `0` in `ℚ`, which `f64IsNormal` classifies as not normal,
matching the `f64` behaviour where the quotient is infinity (also not normal). -/
def State.axisQuot (s : State) : ℚ :=
  (listMax s.cov_sqrt_eigenvalues_diag).getD 0 / (listMin s.cov_sqrt_eigenvalues_diag).getD 0

/-- Inputs of the termination check.  Mirrors `TerminationCheck`
(`src/termination.rs` lines 73-88).  `time_created` is the `Instant` the run
started, embedded as a rational timestamp; histories are ordered newest first
(the driver pushes to the front), exactly as the `VecDeque`s are iterated. -/
structure TerminationCheck where
  current_function_evals : Nat
  time_created : ℚ
  parameters : Parameters
  state : State
  best_function_value_history : List ℚ
  median_function_value_history : List ℚ
  max_history_size : Nat
  first_median_value : Option ℚ
  best_median_value : Option ℚ
  individuals : List EvaluatedPoint
deriving DecidableEq

/-- A guarded singleton: the `if cond { result.push(reason) }` pattern of the
source, as the list of reasons the block appends. -/
def pushIf (b : Bool) (r : TerminationReason) : List TerminationReason :=
  if b then [r] else []

/-- MaxFunctionEvals guard (`src/termination.rs` lines 113-118). -/
def TerminationCheck.maxFunctionEvalsHit (tc : TerminationCheck) : Bool :=
  match tc.parameters.max_function_evals with
  | some m => decide (m ≤ tc.current_function_evals)
  | none => false

/-- MaxGenerations guard (`src/termination.rs` lines 120-125). -/
def TerminationCheck.maxGenerationsHit (tc : TerminationCheck) : Bool :=
  match tc.parameters.max_generations with
  | some m => decide (m ≤ tc.state.generation)
  | none => false

/-- MaxTime guard (`src/termination.rs` lines 127-132).  The source calls
`self.time_created.elapsed()`, which reads the ambient clock: `elapsed = now −
time_created`; the ambient clock reading is therefore an explicit argument
here. -/
def TerminationCheck.maxTimeHit (tc : TerminationCheck) (now : ℚ) : Bool :=
  match tc.parameters.max_time with
  | some t => decide (t ≤ now - tc.time_created)
  | none => false

/-- FunTarget guard (`src/termination.rs` lines 134-137). -/
def TerminationCheck.funTargetHit (tc : TerminationCheck) : Bool :=
  tc.individuals.any fun p => decide (p.value ≤ tc.parameters.fun_target)

/-- History window length `10 + (30.0 * dim / lambda).ceil()` of
`src/termination.rs` line 140, as the exact natural-number ceiling (the `f64`
computation is exact at these magnitudes: when `30·dim/λ` is not an integer its
distance to the nearest integer is at least `1/λ`, far above one ulp). -/
def TerminationCheck.pastGenerationsA (tc : TerminationCheck) : Nat :=
  10 + (30 * tc.parameters.dim + tc.parameters.lambda - 1) / tc.parameters.lambda

/-- Whether the best-value history holds a full window
(`src/termination.rs` line 143). -/
def TerminationCheck.windowReached (tc : TerminationCheck) : Bool :=
  decide (tc.pastGenerationsA ≤ tc.best_function_value_history.length)

/-- Range of the newest `pastGenerationsA` history entries
(`src/termination.rs` lines 144-151; iteration starts at the front, the newest
entry).  The source unwraps the `Option`; the default `0` is never reached when
the window is nonempty. -/
def TerminationCheck.rangeHistoryVal (tc : TerminationCheck) : ℚ :=
  (range (tc.best_function_value_history.take tc.pastGenerationsA)).getD 0

/-- Range of the current generation's objective values
(`src/termination.rs` line 153).  The source unwraps the `Option`; the default
`0` is never reached when `individuals` is nonempty. -/
def TerminationCheck.rangeCurrentVal (tc : TerminationCheck) : ℚ :=
  (range (tc.individuals.map EvaluatedPoint.value)).getD 0

/-- TolFun guard (`src/termination.rs` lines 143-157): only with a full history
window, both the historical range and the current range below `tol_fun`. -/
def TerminationCheck.tolFunHit (tc : TerminationCheck) : Bool :=
  tc.windowReached &&
    decide (tc.rangeHistoryVal < tc.parameters.tol_fun) &&
    decide (tc.rangeCurrentVal < tc.parameters.tol_fun)

/-- TolFunRel guard (`src/termination.rs` lines 159-168): only with a full
window and both median markers present; threshold is
`tol_fun_rel * |first_median_value - best_median_value|`. -/
def TerminationCheck.tolFunRelHit (tc : TerminationCheck) : Bool :=
  tc.windowReached &&
    match tc.first_median_value, tc.best_median_value with
    | some f, some b =>
      decide (tc.rangeHistoryVal < tc.parameters.tol_fun_rel * |f - b|) &&
      decide (tc.rangeCurrentVal < tc.parameters.tol_fun_rel * |f - b|)
    | _, _ => false

/-- TolX guard (`src/termination.rs` lines 171-176).  Note the source compares
`(sigma * cov[(i, i)]).abs()` — the covariance diagonal entry itself, with no
square root — and every coordinate of `sigma * path_c` against `tol_x`. -/
def TerminationCheck.tolXHit (tc : TerminationCheck) : Bool :=
  ((List.range tc.parameters.dim).all fun i =>
    decide (|tc.state.sigma * matEntry tc.state.cov i i| < tc.parameters.tol_x)) &&
  (tc.state.path_c.all fun x => decide (|tc.state.sigma * x| < tc.parameters.tol_x))

/-- TolConditionCov guard (`src/termination.rs` lines 178-183): squared axis
ratio (`axis_ratio().powi(2)`, written as a product) non-normal or above
`tol_condition_cov`. -/
def TerminationCheck.tolConditionCovHit (tc : TerminationCheck) : Bool :=
  (!f64IsNormal (tc.state.axisQuot * tc.state.axisQuot)) ||
    decide (tc.state.axisQuot * tc.state.axisQuot > tc.parameters.tol_condition_cov)

/-- Principal-axis index checked this generation (`src/termination.rs` line 187):
cycles `generation % dim`. -/
def TerminationCheck.noEffectAxisIndex (tc : TerminationCheck) : Nat :=
  tc.state.generation % tc.parameters.dim

/-- The perturbation `0.1 * sigma * cov_sqrt_eigenvalues[(k, k)] *
cov_eigenvectors.column(k)` of `src/termination.rs` lines 189-192, with
`k = generation % dim`. -/
def TerminationCheck.noEffectAxisDelta (tc : TerminationCheck) : List ℚ :=
  (List.range tc.parameters.dim).map fun i =>
    0.1 * tc.state.sigma *
      (tc.state.cov_sqrt_eigenvalues_diag.getD tc.noEffectAxisIndex 0) *
      matEntry tc.state.cov_eigenvectors i tc.noEffectAxisIndex

/-- NoEffectAxis guard (`src/termination.rs` lines 185-196): fires exactly when
`mean == mean + perturbation` (exact equality; over `ℚ` this is no-underflow
equality, over `f64` it additionally catches underflow-to-no-op, which the spec
flags as a deliberate bit-for-bit contract). -/
def TerminationCheck.noEffectAxisHit (tc : TerminationCheck) : Bool :=
  decide (tc.state.mean = List.zipWith (· + ·) tc.state.mean tc.noEffectAxisDelta)

/-- NoEffectCoord guard (`src/termination.rs` lines 198-201). -/
def TerminationCheck.noEffectCoordHit (tc : TerminationCheck) : Bool :=
  (List.range tc.parameters.dim).any fun i =>
    decide (tc.state.mean.getD i 0 =
      tc.state.mean.getD i 0 + 0.2 * tc.state.sigma * matEntry tc.state.cov i i)

/-- TolFunHist guard (`src/termination.rs` lines 203-208): `range_past_generations_a`
is `Some` exactly when the window was reached, and then holds the historical
range already computed for TolFun. -/
def TerminationCheck.tolFunHistHit (tc : TerminationCheck) : Bool :=
  tc.windowReached && decide (tc.rangeHistoryVal < tc.parameters.tol_fun_hist)

/-- The `did_values_improve` closure of `src/termination.rs` lines 219-241.
`first_values` are the newest `subrange_length` entries of the window,
`last_values` the oldest `subrange_length` entries of the window; improvement
means the newest median is strictly below the oldest.  The slice length
`(past_generations_b as f64 * 0.3) as usize` equals `3 * n / 10` in natural
numbers: `0.3_f64` has relative error under one part in `2^53`, so the rounded
product recovers `3n/10` exactly whenever it is an integer, and truncation gives
the floor otherwise. -/
def didValuesImprove (pgb : Nat) (values : List ℚ) : Bool :=
  let subrange_length := 3 * pgb / 10
  let first_values := (values.take pgb).take subrange_length
  let last_values := (values.take pgb).drop (pgb - subrange_length)
  decide (median first_values < median last_values)

/-- Stagnation guard (`src/termination.rs` lines 210-248): both histories filled
to `max_history_size` and neither improved. -/
def TerminationCheck.stagnationHit (tc : TerminationCheck) : Bool :=
  decide (tc.max_history_size ≤ tc.best_function_value_history.length) &&
  decide (tc.max_history_size ≤ tc.median_function_value_history.length) &&
  !didValuesImprove tc.max_history_size tc.best_function_value_history &&
  !didValuesImprove tc.max_history_size tc.median_function_value_history

/-- TolXUp guard (`src/termination.rs` lines 250-260): `sigma` times the largest
square-root eigenvalue, divided by the initial `sigma`, strictly above
`tol_x_up`.  The source unwraps the maximum of the diagonal; the default `0` is
never reached when the diagonal is nonempty. -/
def TerminationCheck.tolXUpHit (tc : TerminationCheck) : Bool :=
  decide (tc.state.sigma * (listMax tc.state.cov_sqrt_eigenvalues_diag).getD 0 /
    tc.parameters.initial_sigma > tc.parameters.tol_x_up)

/-- The termination check, `TerminationCheck::check_termination_criteria`
(`src/termination.rs` lines 92-263).  The returned list appends the reasons in
exactly the push order of the source.  `now` is the ambient clock reading that
`Instant::elapsed` performs inside the MaxTime branch. -/
def TerminationCheck.check_termination_criteria (tc : TerminationCheck) (now : ℚ) :
    List TerminationReason :=
  pushIf tc.maxFunctionEvalsHit .MaxFunctionEvals ++
  pushIf tc.maxGenerationsHit .MaxGenerations ++
  pushIf (tc.maxTimeHit now) .MaxTime ++
  pushIf tc.funTargetHit .FunTarget ++
  pushIf tc.tolFunHit .TolFun ++
  pushIf tc.tolFunRelHit .TolFunRel ++
  pushIf tc.tolXHit .TolX ++
  pushIf tc.tolConditionCovHit .TolConditionCov ++
  pushIf tc.noEffectAxisHit .NoEffectAxis ++
  pushIf tc.noEffectCoordHit .NoEffectCoord ++
  pushIf tc.tolFunHistHit .TolFunHist ++
  pushIf tc.stagnationHit .Stagnation ++
  pushIf tc.tolXUpHit .TolXUp

/-- The distribution of weights for the population; mirrors `Weights` of
`src/options.rs` lines 161-179. -/
inductive Weights where
  | Positive
  | Negative
  | Uniform
deriving DecidableEq, Inhabited

/-- Plot configuration.  The real `PlotOptions` lives in `src/plot.rs` (not under
`src/`, and out of the spec's core scope); the builder only stores it opaquely,
so an empty structure suffices. -/
structure PlotOptions where
deriving DecidableEq, Inhabited

/-- Represents invalid options for CMA-ES; mirrors `InvalidOptionsError` of
`src/options.rs` lines 181-194. -/
inductive InvalidOptionsError where
  | Dimensions
  | MeanDimensionMismatch
  | PopulationSize
  | InitialStepSize
  | Cm
deriving DecidableEq, Inhabited

/-- The options record; mirrors `CMAESOptions` of `src/options.rs` lines 23-64. -/
structure CMAESOptions where
  dimensions : Nat
  initial_mean : List ℚ
  initial_step_size : ℚ
  population_size : Nat
  weights : Weights
  cm : ℚ
  tol_fun : ℚ
  tol_x : Option ℚ
  seed : Option Nat
  plot_options : Option PlotOptions
  print_gap_evals : Option Nat
deriving DecidableEq

/-- Setter `CMAESOptions::initial_mean` (`src/options.rs` lines 85-89); stores the
value, touching nothing else.  (In Lean the Rust method name collides with the
field projection, hence the `set` spelling.) -/
def CMAESOptions.setInitialMean (o : CMAESOptions) (v : List ℚ) : CMAESOptions :=
  { o with initial_mean := v }

/-- Setter `CMAESOptions::initial_step_size` (`src/options.rs` lines 91-95).  The
doc comment says the value must be positive, but the setter performs no
validation. -/
def CMAESOptions.setInitialStepSize (o : CMAESOptions) (v : ℚ) : CMAESOptions :=
  { o with initial_step_size := v }

/-- Setter `CMAESOptions::population_size` (`src/options.rs` lines 97-101).  The
doc comment says the value must be at least 4, but the setter performs no
validation. -/
def CMAESOptions.setPopulationSize (o : CMAESOptions) (v : Nat) : CMAESOptions :=
  { o with population_size := v }

/-- Setter `CMAESOptions::weights` (`src/options.rs` lines 103-108). -/
def CMAESOptions.setWeights (o : CMAESOptions) (v : Weights) : CMAESOptions :=
  { o with weights := v }

/-- Setter `CMAESOptions::cm` (`src/options.rs` lines 110-115). -/
def CMAESOptions.setCm (o : CMAESOptions) (v : ℚ) : CMAESOptions :=
  { o with cm := v }

/-- Setter `CMAESOptions::tol_fun` (`src/options.rs` lines 117-122). -/
def CMAESOptions.setTolFun (o : CMAESOptions) (v : ℚ) : CMAESOptions :=
  { o with tol_fun := v }

/-- Setter `CMAESOptions::tol_x` (`src/options.rs` lines 124-129); wraps the value
in `Some`. -/
def CMAESOptions.setTolX (o : CMAESOptions) (v : ℚ) : CMAESOptions :=
  { o with tol_x := some v }

/-- Setter `CMAESOptions::seed` (`src/options.rs` lines 131-135). -/
def CMAESOptions.setSeed (o : CMAESOptions) (v : Nat) : CMAESOptions :=
  { o with seed := some v }

/-- Setter `CMAESOptions::enable_plot` (`src/options.rs` lines 137-141). -/
def CMAESOptions.enable_plot (o : CMAESOptions) (v : PlotOptions) : CMAESOptions :=
  { o with plot_options := some v }

/-- Setter `CMAESOptions::enable_printing` (`src/options.rs` lines 143-149). -/
def CMAESOptions.enable_printing (o : CMAESOptions) (v : Nat) : CMAESOptions :=
  { o with print_gap_evals := some v }

/-- The freshly constructed run state the builder produces on success; the parts
of `CMAESState` relevant at construction (spec sections 3 and 6: initial mean,
initial step size, generation counter starting at 0). -/
structure CMAESState where
  mean : List ℚ
  sigma : ℚ
  generation : Nat
deriving DecidableEq

/-- Modelled from the spec: `CMAESOptions::build` (`src/options.rs` lines 151-158)
delegates to `CMAESState::new`, whose body (`src/lib.rs`) is not under `src/`.
Spec sections 4.1 and 6: construction "fails with a distinct InvalidOptions
sub-reason when N=0, λ<4, initial step size ≤0, mean length ≠ N, or cm outside
(0,1]", before any State is created; the checks are modelled in the spec's
listing order.  On success a fresh state is created from the options. -/
def CMAESOptions.build (o : CMAESOptions) : Except InvalidOptionsError CMAESState :=
  if o.dimensions = 0 then .error .Dimensions
  else if o.population_size < 4 then .error .PopulationSize
  else if o.initial_step_size ≤ 0 then .error .InitialStepSize
  else if o.initial_mean.length ≠ o.dimensions then .error .MeanDimensionMismatch
  else if ¬(0 < o.cm ∧ o.cm ≤ 1) then .error .Cm
  else .ok { mean := o.initial_mean, sigma := o.initial_step_size, generation := 0 }

/-- The identity matrix as a row-major list of rows. -/
def idMatrix (n : Nat) : List (List ℚ) :=
  (List.range n).map fun i => (List.range n).map fun j => if i = j then 1 else 0

/-- Modelled from the spec: a freshly initialized `State` (`State::new` lives in
`src/state.rs`, not under `src/`).  Spec section 3: mean as given, covariance the
identity (eigenvectors the identity, all sqrt-eigenvalues 1), step size as given,
evolution path zero, generation counter starting at 0.  The repository's own
tests in `src/termination.rs` build exactly this state via `get_state`. -/
def freshState (dim : Nat) (sigma : ℚ) : State :=
  { mean := List.replicate dim 0
    cov := idMatrix dim
    cov_eigenvectors := idMatrix dim
    cov_sqrt_eigenvalues_diag := List.replicate dim 1
    sigma := sigma
    path_c := List.replicate dim 0
    generation := 0 }

/-- Parameters mirroring the `get_parameters` test helper of
`src/termination.rs` lines 281-312 (defaults of the crate), generalized over the
dimension, population size, initial step size, `tol_fun_hist` and `max_time`. -/
def paramsTest (dim lambda : Nat) (initial_sigma tol_fun_hist : ℚ)
    (max_time : Option ℚ) : Parameters :=
  { dim := dim
    lambda := lambda
    initial_sigma := initial_sigma
    fun_target := 1e-12
    tol_fun := 1e-12
    tol_fun_rel := 1e-12
    tol_fun_hist := tol_fun_hist
    tol_x := 1e-12 * initial_sigma
    tol_x_up := 1e8
    tol_condition_cov := 1e14
    max_function_evals := none
    max_generations := none
    max_time := max_time }

/-- Scenario input for the TolFun test of spec section 8: dimension 2,
population 6, fresh state with step size 0.5, best-value history of one hundred
entries 1.0 with 1.0 + 1e-13 pushed to the front, `tol_fun_hist` 0, and a
generation whose values all equal the newest history entry (mirrors
`test_check_termination_criteria_tol_fun`). -/
def tcTolFun : TerminationCheck :=
  { current_function_evals := 0
    time_created := 0
    parameters := paramsTest 2 6 0.5 0 none
    state := freshState 2 0.5
    best_function_value_history := (1 + 1e-13) :: List.replicate 100 1
    median_function_value_history := []
    max_history_size := 100
    first_median_value := some 0
    best_median_value := some 0
    individuals := List.replicate 6 { point := List.replicate 2 0, value := 1 + 1e-13 } }

/-- Scenario input for the FunTarget test of spec section 8: dimension 5,
population 6, objective identically 0, target 1e-12, first generation (fresh
state, single-entry histories). -/
def tcFunTarget : TerminationCheck :=
  { current_function_evals := 6
    time_created := 0
    parameters := paramsTest 5 6 0.5 1e-12 none
    state := freshState 5 0.5
    best_function_value_history := [0]
    median_function_value_history := [0]
    max_history_size := 100
    first_median_value := some 0
    best_median_value := some 0
    individuals := List.replicate 6 { point := List.replicate 5 0, value := 0 } }

/-- Scenario input for the TolXUp test of spec section 8: step size forced to 1e8
with initial step size 0.5 and divergence tolerance 1e8 (mirrors
`test_check_termination_criteria_tol_x_up`). -/
def tcTolXUp : TerminationCheck :=
  { current_function_evals := 0
    time_created := 0
    parameters := paramsTest 2 6 0.5 1e-12 none
    state := { freshState 2 0.5 with sigma := 1e8 }
    best_function_value_history := []
    median_function_value_history := []
    max_history_size := 100
    first_median_value := some 0
    best_median_value := some 0
    individuals := List.replicate 6 { point := List.replicate 2 0, value := 1 } }

/-- Input exhibiting the missing square root in the TolX branch: dimension 1,
`sigma` 1, covariance diagonal entry 1e-4 (so the coordinate standard deviation
is `sigma * sqrt(1e-4) = 1e-2`), zero evolution path, and `tol_x` 1e-3.  The
eigendecomposition fields are consistent with the covariance
(eigenvector 1, sqrt-eigenvalue 1e-2). -/
def tcTolX : TerminationCheck :=
  { current_function_evals := 0
    time_created := 0
    parameters :=
      { dim := 1
        lambda := 6
        initial_sigma := 1
        fun_target := 1e-12
        tol_fun := 1e-12
        tol_fun_rel := 1e-12
        tol_fun_hist := 1e-12
        tol_x := 1e-3
        tol_x_up := 1e8
        tol_condition_cov := 1e14
        max_function_evals := none
        max_generations := none
        max_time := none }
    state :=
      { mean := [0]
        cov := [[1e-4]]
        cov_eigenvectors := [[1]]
        cov_sqrt_eigenvalues_diag := [1e-2]
        sigma := 1
        path_c := [0]
        generation := 0 }
    best_function_value_history := []
    median_function_value_history := []
    max_history_size := 100
    first_median_value := some 0
    best_median_value := some 0
    individuals := [{ point := [0], value := 1 }] }

/-- Input demonstrating the clock dependence of the MaxTime branch: a benign
fresh state (no criterion fires on its own) with `max_time` set to 4 and the run
started at time 0. -/
def tcMaxTime : TerminationCheck :=
  { current_function_evals := 0
    time_created := 0
    parameters := paramsTest 1 6 0.5 1e-12 (some 4)
    state := freshState 1 0.5
    best_function_value_history := []
    median_function_value_history := []
    max_history_size := 100
    first_median_value := some 0
    best_median_value := some 0
    individuals := [{ point := [0], value := 1 }] }

/-- Input on which NoEffectAxis fires: dimension 1 with sqrt-eigenvalue 0, so the
perturbation along the checked principal axis is exactly zero and adding it to
the mean changes nothing. -/
def tcNoEffect : TerminationCheck :=
  { current_function_evals := 0
    time_created := 0
    parameters := paramsTest 1 6 0.5 1e-12 none
    state :=
      { mean := [5]
        cov := [[0]]
        cov_eigenvectors := [[1]]
        cov_sqrt_eigenvalues_diag := [0]
        sigma := 0.5
        path_c := [0]
        generation := 0 }
    best_function_value_history := []
    median_function_value_history := []
    max_history_size := 100
    first_median_value := some 0
    best_median_value := some 0
    individuals := [{ point := [0], value := 1 }] }

/-- Input on which Stagnation fires (mirrors
`test_check_termination_criteria_stagnation`): both histories are 40 entries long
with newest 10 entries `1.0; 2.0 ...` arranged so that neither 12-entry slice
median improves, and `max_history_size` 40. -/
def tcStagnation : TerminationCheck :=
  { current_function_evals := 0
    time_created := 0
    parameters := paramsTest 2 6 0.5 1e-12 none
    state := freshState 2 0.5
    best_function_value_history :=
      List.replicate 10 1 ++ List.replicate 10 2 ++ List.replicate 10 2 ++ List.replicate 10 1
    median_function_value_history :=
      List.replicate 10 1 ++ List.replicate 10 2 ++ List.replicate 10 2 ++ List.replicate 10 1
    max_history_size := 40
    first_median_value := some 0
    best_median_value := some 0
    individuals := List.replicate 6 { point := List.replicate 2 0, value := 1 } }

/-- A fully valid options record (dimension 5 with the crate's default mean,
step size and a population size of 8). -/
def optsValid : CMAESOptions :=
  { dimensions := 5
    initial_mean := List.replicate 5 0
    initial_step_size := 0.5
    population_size := 8
    weights := .Negative
    cm := 1
    tol_fun := 1e-12
    tol_x := none
    seed := none
    plot_options := none
    print_gap_evals := none }

/-- The valid options with the initial step size set to −1.0 (the construction
scenario of spec section 8). -/
def optsNegStep : CMAESOptions := optsValid.setInitialStepSize (-1)

/-- The valid options with the dimension field zeroed (mean deliberately left at
length 5 so that only the dimension check can fire first). -/
def optsDims0 : CMAESOptions := { optsValid with dimensions := 0 }

/-- Membership in a guarded singleton: the guard holds and the member is the
guarded reason. -/
theorem mem_pushIf {b : Bool} {c r : TerminationReason} :
    r ∈ pushIf b c ↔ b = true ∧ r = c := by
  cases b <;> simp [pushIf]

/-- A reason belongs to the returned list exactly when its guard fired. -/
theorem mem_check_termination_criteria (tc : TerminationCheck) (now : ℚ)
    (r : TerminationReason) :
    r ∈ tc.check_termination_criteria now ↔
      (tc.maxFunctionEvalsHit = true ∧ r = .MaxFunctionEvals) ∨
      (tc.maxGenerationsHit = true ∧ r = .MaxGenerations) ∨
      (tc.maxTimeHit now = true ∧ r = .MaxTime) ∨
      (tc.funTargetHit = true ∧ r = .FunTarget) ∨
      (tc.tolFunHit = true ∧ r = .TolFun) ∨
      (tc.tolFunRelHit = true ∧ r = .TolFunRel) ∨
      (tc.tolXHit = true ∧ r = .TolX) ∨
      (tc.tolConditionCovHit = true ∧ r = .TolConditionCov) ∨
      (tc.noEffectAxisHit = true ∧ r = .NoEffectAxis) ∨
      (tc.noEffectCoordHit = true ∧ r = .NoEffectCoord) ∨
      (tc.tolFunHistHit = true ∧ r = .TolFunHist) ∨
      (tc.stagnationHit = true ∧ r = .Stagnation) ∨
      (tc.tolXUpHit = true ∧ r = .TolXUp) := by
  simp [TerminationCheck.check_termination_criteria, mem_pushIf]

/-- TolFun membership reduces to its guard. -/
theorem tolFun_mem (tc : TerminationCheck) (now : ℚ) :
    TerminationReason.TolFun ∈ tc.check_termination_criteria now ↔ tc.tolFunHit = true := by
  simp [mem_check_termination_criteria]

/-- TolFunRel membership reduces to its guard. -/
theorem tolFunRel_mem (tc : TerminationCheck) (now : ℚ) :
    TerminationReason.TolFunRel ∈ tc.check_termination_criteria now ↔
      tc.tolFunRelHit = true := by
  simp [mem_check_termination_criteria]

/-- TolFunHist membership reduces to its guard. -/
theorem tolFunHist_mem (tc : TerminationCheck) (now : ℚ) :
    TerminationReason.TolFunHist ∈ tc.check_termination_criteria now ↔
      tc.tolFunHistHit = true := by
  simp [mem_check_termination_criteria]

/-- FunTarget membership reduces to its guard. -/
theorem funTarget_mem (tc : TerminationCheck) (now : ℚ) :
    TerminationReason.FunTarget ∈ tc.check_termination_criteria now ↔
      tc.funTargetHit = true := by
  simp [mem_check_termination_criteria]

/-- NoEffectAxis membership reduces to its guard. -/
theorem noEffectAxis_mem (tc : TerminationCheck) (now : ℚ) :
    TerminationReason.NoEffectAxis ∈ tc.check_termination_criteria now ↔
      tc.noEffectAxisHit = true := by
  simp [mem_check_termination_criteria]

/-- Stagnation membership reduces to its guard. -/
theorem stagnation_mem (tc : TerminationCheck) (now : ℚ) :
    TerminationReason.Stagnation ∈ tc.check_termination_criteria now ↔
      tc.stagnationHit = true := by
  simp [mem_check_termination_criteria]

/-- TolXUp membership reduces to its guard. -/
theorem tolXUp_mem (tc : TerminationCheck) (now : ℚ) :
    TerminationReason.TolXUp ∈ tc.check_termination_criteria now ↔
      tc.tolXUpHit = true := by
  simp [mem_check_termination_criteria]

/-- The TolFun guard unfolded to its arithmetic conditions. -/
theorem tolFunHit_iff (tc : TerminationCheck) :
    tc.tolFunHit = true ↔
      tc.pastGenerationsA ≤ tc.best_function_value_history.length ∧
      tc.rangeHistoryVal < tc.parameters.tol_fun ∧
      tc.rangeCurrentVal < tc.parameters.tol_fun := by
  simp [TerminationCheck.tolFunHit, TerminationCheck.windowReached, Bool.and_eq_true,
    and_assoc]

/-- The TolFunHist guard unfolded to its arithmetic conditions. -/
theorem tolFunHistHit_iff (tc : TerminationCheck) :
    tc.tolFunHistHit = true ↔
      tc.pastGenerationsA ≤ tc.best_function_value_history.length ∧
      tc.rangeHistoryVal < tc.parameters.tol_fun_hist := by
  simp [TerminationCheck.tolFunHistHit, TerminationCheck.windowReached, Bool.and_eq_true]

/-- The TolFunRel guard unfolded, given both median markers. -/
theorem tolFunRelHit_iff (tc : TerminationCheck) (f b : ℚ)
    (hf : tc.first_median_value = some f) (hb : tc.best_median_value = some b) :
    tc.tolFunRelHit = true ↔
      tc.pastGenerationsA ≤ tc.best_function_value_history.length ∧
      tc.rangeHistoryVal < tc.parameters.tol_fun_rel * |f - b| ∧
      tc.rangeCurrentVal < tc.parameters.tol_fun_rel * |f - b| := by
  simp [TerminationCheck.tolFunRelHit, TerminationCheck.windowReached, hf, hb,
    Bool.and_eq_true, and_assoc]

/-- The FunTarget guard unfolded: some individual at or below the target. -/
theorem funTargetHit_iff (tc : TerminationCheck) :
    tc.funTargetHit = true ↔
      ∃ p ∈ tc.individuals, p.value ≤ tc.parameters.fun_target := by
  simp [TerminationCheck.funTargetHit, List.any_eq_true]

/-- The Stagnation guard unfolded to its length and median conditions. -/
theorem stagnationHit_iff (tc : TerminationCheck) :
    tc.stagnationHit = true ↔
      tc.max_history_size ≤ tc.best_function_value_history.length ∧
      tc.max_history_size ≤ tc.median_function_value_history.length ∧
      ¬ didValuesImprove tc.max_history_size tc.best_function_value_history = true ∧
      ¬ didValuesImprove tc.max_history_size tc.median_function_value_history = true := by
  simp [TerminationCheck.stagnationHit, Bool.and_eq_true, and_assoc]

/-- The TolXUp guard unfolded. -/
theorem tolXUpHit_iff (tc : TerminationCheck) :
    tc.tolXUpHit = true ↔
      tc.state.sigma * (listMax tc.state.cov_sqrt_eigenvalues_diag).getD 0 /
        tc.parameters.initial_sigma > tc.parameters.tol_x_up := by
  simp [TerminationCheck.tolXUpHit]

/-- The `did_values_improve` closure unfolded to the median comparison. -/
theorem didValuesImprove_iff (pgb : Nat) (values : List ℚ) :
    didValuesImprove pgb values = true ↔
      median ((values.take pgb).take (3 * pgb / 10)) <
        median ((values.take pgb).drop (pgb - 3 * pgb / 10)) := by
  simp [didValuesImprove]

set_option exponentiation.threshold 2000

set_option maxRecDepth 8000 in
/-- C1: the claim (and the spec, and the code's own doc comment for `TolX`) ask
for the coordinate standard deviation `sigma * sqrt(C[i,i])` to be below
`tol_x`; the code compares `sigma * C[i,i]` with no square root.  At `tcTolX`
the code returns TolX although the coordinate standard deviation
`sigma * sqrt(C[0,0]) = 1 * (1/100)` is not below `tol_x = 1/1000`: the claimed
biconditional fails on the code. -/
theorem c1_tolX_fires_without_sqrt :
    tcTolX.check_termination_criteria 0 = [TerminationReason.TolX] ∧
    matEntry tcTolX.state.cov 0 0 = (1 / 100 : ℚ) * (1 / 100) ∧
    ¬ tcTolX.state.sigma * (1 / 100 : ℚ) < tcTolX.parameters.tol_x ∧
    tcTolX.state.path_c = [0] ∧ tcTolX.state.sigma = 1 := by
  refine ⟨?_, ?_, ?_, ?_, ?_⟩
  · with_unfolding_all rfl
  · with_unfolding_all rfl
  · with_unfolding_all decide
  · with_unfolding_all rfl
  · with_unfolding_all rfl

set_option maxRecDepth 8000 in
/-- C2 counterexample: two invocations with identical explicit inputs
(`tcMaxTime` both times) return different reason sets when the ambient clock
has advanced past the configured `max_time`, because the code reads the clock
through `Instant::elapsed`.  This refutes the claim that the result depends on
nothing but the listed inputs. -/
theorem c2_clock_changes_result :
    tcMaxTime.check_termination_criteria 0 ≠ tcMaxTime.check_termination_criteria 5 := by
  have h1 : tcMaxTime.check_termination_criteria 0 = [] := by with_unfolding_all rfl
  have h2 : tcMaxTime.check_termination_criteria 5 = [TerminationReason.MaxTime] := by
    with_unfolding_all rfl
  rw [h1, h2]
  simp

/-- C2 (amended): the termination check is a pure function of its explicit
inputs together with the current clock reading; when no `max_time` limit is
configured the clock reading is irrelevant and identical explicit inputs yield
identical results. -/
theorem c2_check_pure_given_clock (tc : TerminationCheck) (t1 t2 : ℚ)
    (h : tc.parameters.max_time = none) :
    tc.check_termination_criteria t1 = tc.check_termination_criteria t2 := by
  simp [TerminationCheck.check_termination_criteria, TerminationCheck.maxTimeHit, h]

/-- C2 witness: a concrete input without a time limit, checked at two different
clock readings. -/
theorem c2_check_pure_given_clock_witness :
    tcFunTarget.parameters.max_time = none ∧
    tcFunTarget.check_termination_criteria 3 = tcFunTarget.check_termination_criteria 7 :=
  ⟨rfl, c2_check_pure_given_clock tcFunTarget 3 7 rfl⟩

/-- TolFunRel can only fire with a full history window. -/
theorem tolFunRelHit_window (tc : TerminationCheck) (h : tc.tolFunRelHit = true) :
    tc.pastGenerationsA ≤ tc.best_function_value_history.length := by
  unfold TerminationCheck.tolFunRelHit at h
  rw [Bool.and_eq_true] at h
  simpa [TerminationCheck.windowReached] using h.1

set_option linter.unusedVariables false in
/-- C3: TolFun, TolFunRel and TolFunHist are evaluated only once the best-value
history holds `10 + ceil(30 * N / lambda)` entries; TolFun compares both the
historical range and the current generation's range against `tol_fun`, TolFunRel
against `tol_fun_rel * |first-ever median - best-ever median|`, and TolFunHist
compares only the historical range against `tol_fun_hist`. -/
theorem c3_tolFun_family_window (tc : TerminationCheck) (now : ℚ)
    (hlam : 1 ≤ tc.parameters.lambda) (hind : tc.individuals ≠ []) :
    ((TerminationReason.TolFun ∈ tc.check_termination_criteria now ∨
      TerminationReason.TolFunRel ∈ tc.check_termination_criteria now ∨
      TerminationReason.TolFunHist ∈ tc.check_termination_criteria now) →
        tc.pastGenerationsA ≤ tc.best_function_value_history.length) ∧
    (TerminationReason.TolFun ∈ tc.check_termination_criteria now ↔
      tc.pastGenerationsA ≤ tc.best_function_value_history.length ∧
      tc.rangeHistoryVal < tc.parameters.tol_fun ∧
      tc.rangeCurrentVal < tc.parameters.tol_fun) ∧
    (∀ f b : ℚ, tc.first_median_value = some f → tc.best_median_value = some b →
      (TerminationReason.TolFunRel ∈ tc.check_termination_criteria now ↔
        tc.pastGenerationsA ≤ tc.best_function_value_history.length ∧
        tc.rangeHistoryVal < tc.parameters.tol_fun_rel * |f - b| ∧
        tc.rangeCurrentVal < tc.parameters.tol_fun_rel * |f - b|)) ∧
    (TerminationReason.TolFunHist ∈ tc.check_termination_criteria now ↔
      tc.pastGenerationsA ≤ tc.best_function_value_history.length ∧
      tc.rangeHistoryVal < tc.parameters.tol_fun_hist) ∧
    tc.pastGenerationsA =
      10 + (30 * tc.parameters.dim + tc.parameters.lambda - 1) / tc.parameters.lambda := by
  refine ⟨?_, ?_, ?_, ?_, rfl⟩
  · rintro (h | h | h)
    · exact ((tolFunHit_iff tc).mp ((tolFun_mem tc now).mp h)).1
    · exact tolFunRelHit_window tc ((tolFunRel_mem tc now).mp h)
    · exact ((tolFunHistHit_iff tc).mp ((tolFunHist_mem tc now).mp h)).1
  · rw [tolFun_mem, tolFunHit_iff]
  · intro f b hf hb
    rw [tolFunRel_mem, tolFunRelHit_iff tc f b hf hb]
  · rw [tolFunHist_mem, tolFunHistHit_iff]

set_option maxRecDepth 40000 in
/-- C3 witness: the TolFun scenario input satisfies the hypotheses and the
instantiated conclusions. -/
theorem c3_tolFun_family_window_witness :
    (1 ≤ tcTolFun.parameters.lambda ∧ tcTolFun.individuals ≠ []) ∧
    (((TerminationReason.TolFun ∈ tcTolFun.check_termination_criteria 0 ∨
      TerminationReason.TolFunRel ∈ tcTolFun.check_termination_criteria 0 ∨
      TerminationReason.TolFunHist ∈ tcTolFun.check_termination_criteria 0) →
        tcTolFun.pastGenerationsA ≤ tcTolFun.best_function_value_history.length) ∧
    (TerminationReason.TolFun ∈ tcTolFun.check_termination_criteria 0 ↔
      tcTolFun.pastGenerationsA ≤ tcTolFun.best_function_value_history.length ∧
      tcTolFun.rangeHistoryVal < tcTolFun.parameters.tol_fun ∧
      tcTolFun.rangeCurrentVal < tcTolFun.parameters.tol_fun) ∧
    (∀ f b : ℚ, tcTolFun.first_median_value = some f →
        tcTolFun.best_median_value = some b →
      (TerminationReason.TolFunRel ∈ tcTolFun.check_termination_criteria 0 ↔
        tcTolFun.pastGenerationsA ≤ tcTolFun.best_function_value_history.length ∧
        tcTolFun.rangeHistoryVal < tcTolFun.parameters.tol_fun_rel * |f - b| ∧
        tcTolFun.rangeCurrentVal < tcTolFun.parameters.tol_fun_rel * |f - b|)) ∧
    (TerminationReason.TolFunHist ∈ tcTolFun.check_termination_criteria 0 ↔
      tcTolFun.pastGenerationsA ≤ tcTolFun.best_function_value_history.length ∧
      tcTolFun.rangeHistoryVal < tcTolFun.parameters.tol_fun_hist) ∧
    tcTolFun.pastGenerationsA =
      10 + (30 * tcTolFun.parameters.dim + tcTolFun.parameters.lambda - 1) /
        tcTolFun.parameters.lambda) :=
  ⟨⟨by decide, by decide⟩, c3_tolFun_family_window tcTolFun 0 (by decide) (by decide)⟩

set_option maxRecDepth 40000 in
/-- C4: with the prescribed history (one hundred entries 1.0 and 1.0 + 1e-13
prepended), `tol_fun_hist = 0`, a reached window and current values equal to the
newest entry, the check returns exactly TolFun; TolFunHist is absent because the
historical range is positive and cannot beat the zero threshold. -/
theorem c4_tolFun_scenario :
    tcTolFun.check_termination_criteria 0 = [TerminationReason.TolFun] ∧
    TerminationReason.TolFunHist ∉ tcTolFun.check_termination_criteria 0 ∧
    tcTolFun.parameters.tol_fun_hist = 0 ∧
    0 < tcTolFun.rangeHistoryVal := by
  have h : tcTolFun.check_termination_criteria 0 = [TerminationReason.TolFun] := by
    with_unfolding_all rfl
  refine ⟨h, ?_, by with_unfolding_all rfl, by with_unfolding_all decide⟩
  rw [h]
  simp

set_option maxRecDepth 40000 in
/-- C5: FunTarget is returned exactly when some individual's value is at or
below the configured target (the comparison is inclusive), and in the concrete
scenario (dimension 5, population 6, objective identically 0, target 1e-12) the
first generation's check returns exactly FunTarget. -/
theorem c5_funTarget_iff_and_scenario :
    (∀ (tc : TerminationCheck) (now : ℚ),
      (TerminationReason.FunTarget ∈ tc.check_termination_criteria now ↔
        ∃ p ∈ tc.individuals, p.value ≤ tc.parameters.fun_target)) ∧
    tcFunTarget.check_termination_criteria 0 = [TerminationReason.FunTarget] := by
  constructor
  · intro tc now
    rw [funTarget_mem, funTargetHit_iff]
  · with_unfolding_all rfl

set_option maxRecDepth 8000 in
/-- C7: TolXUp is returned exactly when `sigma` times the largest square-root
eigenvalue, divided by the initial `sigma`, strictly exceeds `tol_x_up`; in the
concrete scenario (`sigma = 1e8`, initial `sigma = 0.5`, `tol_x_up = 1e8`) the
check returns exactly TolXUp. -/
theorem c7_tolXUp_iff_and_scenario :
    (∀ (tc : TerminationCheck) (now : ℚ),
      tc.state.cov_sqrt_eigenvalues_diag ≠ [] →
      (TerminationReason.TolXUp ∈ tc.check_termination_criteria now ↔
        tc.state.sigma * (listMax tc.state.cov_sqrt_eigenvalues_diag).getD 0 /
          tc.parameters.initial_sigma > tc.parameters.tol_x_up)) ∧
    tcTolXUp.check_termination_criteria 0 = [TerminationReason.TolXUp] := by
  constructor
  · intro tc now _
    rw [tolXUp_mem, tolXUpHit_iff]
  · with_unfolding_all rfl

/-- C7 witness: the TolXUp scenario input satisfies the hypothesis and the
instantiated biconditional. -/
theorem c7_tolXUp_iff_and_scenario_witness :
    tcTolXUp.state.cov_sqrt_eigenvalues_diag ≠ [] ∧
    (TerminationReason.TolXUp ∈ tcTolXUp.check_termination_criteria 0 ↔
      tcTolXUp.state.sigma * (listMax tcTolXUp.state.cov_sqrt_eigenvalues_diag).getD 0 /
        tcTolXUp.parameters.initial_sigma > tcTolXUp.parameters.tol_x_up) :=
  ⟨by decide, c7_tolXUp_iff_and_scenario.1 tcTolXUp 0 (by decide)⟩

/-- C8: in generation `g` the NoEffectAxis check examines exactly the principal
axis of index `g mod N` (this cycling index is part of the contract), and fires
exactly when adding the perturbation `0.1 * sigma * sqrt-eigenvalue[k] *
eigenvector-column[k]` to the mean yields a vector equal to the mean. -/
theorem c8_noEffectAxis_iff (tc : TerminationCheck) (now : ℚ)
    (hdim : 1 ≤ tc.parameters.dim) :
    (TerminationReason.NoEffectAxis ∈ tc.check_termination_criteria now ↔
      tc.state.mean = List.zipWith (· + ·) tc.state.mean tc.noEffectAxisDelta) ∧
    tc.noEffectAxisIndex = tc.state.generation % tc.parameters.dim ∧
    tc.noEffectAxisIndex < tc.parameters.dim := by
  refine ⟨?_, rfl, Nat.mod_lt _ hdim⟩
  rw [noEffectAxis_mem]
  simp [TerminationCheck.noEffectAxisHit]

set_option maxRecDepth 8000 in
/-- C8 witness: an input with a zero sqrt-eigenvalue, on which the perturbation
vanishes and NoEffectAxis fires. -/
theorem c8_noEffectAxis_iff_witness :
    1 ≤ tcNoEffect.parameters.dim ∧
    ((TerminationReason.NoEffectAxis ∈ tcNoEffect.check_termination_criteria 0 ↔
      tcNoEffect.state.mean =
        List.zipWith (· + ·) tcNoEffect.state.mean tcNoEffect.noEffectAxisDelta) ∧
    tcNoEffect.noEffectAxisIndex =
      tcNoEffect.state.generation % tcNoEffect.parameters.dim ∧
    tcNoEffect.noEffectAxisIndex < tcNoEffect.parameters.dim) :=
  ⟨by decide, c8_noEffectAxis_iff tcNoEffect 0 (by decide)⟩

/-- C9: Stagnation is returned exactly when both histories hold at least
`max_history_size` entries and, for each history, the median of the newest
30%-of-window slice is not strictly below the median of the oldest
30%-of-window slice. -/
theorem c9_stagnation_iff (tc : TerminationCheck) (now : ℚ) :
    TerminationReason.Stagnation ∈ tc.check_termination_criteria now ↔
      tc.max_history_size ≤ tc.best_function_value_history.length ∧
      tc.max_history_size ≤ tc.median_function_value_history.length ∧
      ¬ (median ((tc.best_function_value_history.take tc.max_history_size).take
            (3 * tc.max_history_size / 10)) <
         median ((tc.best_function_value_history.take tc.max_history_size).drop
            (tc.max_history_size - 3 * tc.max_history_size / 10))) ∧
      ¬ (median ((tc.median_function_value_history.take tc.max_history_size).take
            (3 * tc.max_history_size / 10)) <
         median ((tc.median_function_value_history.take tc.max_history_size).drop
            (tc.max_history_size - 3 * tc.max_history_size / 10))) := by
  rw [stagnation_mem, stagnationHit_iff]
  simp [didValuesImprove_iff]

/-- C6: construction through `build` fails with the matching distinct
`InvalidOptionsError` sub-reason for each invalid condition (checked in the
spec's listing order: dimension zero, population size below 4, non-positive
initial step size, mean length mismatch, `cm` outside (0, 1]), succeeds with a
fresh state otherwise, and in particular fails with `InitialStepSize` when the
initial step size is set to -1. -/
theorem c6_build_invalid_options :
    (∀ o : CMAESOptions, o.dimensions = 0 → o.build = .error .Dimensions) ∧
    (∀ o : CMAESOptions, o.dimensions ≠ 0 → o.population_size < 4 →
      o.build = .error .PopulationSize) ∧
    (∀ o : CMAESOptions, o.dimensions ≠ 0 → 4 ≤ o.population_size →
      o.initial_step_size ≤ 0 → o.build = .error .InitialStepSize) ∧
    (∀ o : CMAESOptions, o.dimensions ≠ 0 → 4 ≤ o.population_size →
      0 < o.initial_step_size → o.initial_mean.length ≠ o.dimensions →
      o.build = .error .MeanDimensionMismatch) ∧
    (∀ o : CMAESOptions, o.dimensions ≠ 0 → 4 ≤ o.population_size →
      0 < o.initial_step_size → o.initial_mean.length = o.dimensions →
      ¬ (0 < o.cm ∧ o.cm ≤ 1) → o.build = .error .Cm) ∧
    (∀ o : CMAESOptions, o.dimensions ≠ 0 → 4 ≤ o.population_size →
      0 < o.initial_step_size → o.initial_mean.length = o.dimensions →
      0 < o.cm → o.cm ≤ 1 →
      o.build = .ok (CMAESState.mk o.initial_mean o.initial_step_size 0)) ∧
    optsNegStep.build = .error .InitialStepSize := by
  refine ⟨?_, ?_, ?_, ?_, ?_, ?_, ?_⟩
  · intro o h
    simp [CMAESOptions.build, h]
  · intro o h1 h2
    simp [CMAESOptions.build, h1, h2]
  · intro o h1 h2 h3
    simp [CMAESOptions.build, h1, Nat.not_lt.mpr h2, h3]
  · intro o h1 h2 h3 h4
    simp [CMAESOptions.build, h1, Nat.not_lt.mpr h2, not_le.mpr h3, h4]
  · intro o h1 h2 h3 h4 h5
    simp [CMAESOptions.build, h1, Nat.not_lt.mpr h2, not_le.mpr h3, h4, h5]
  · intro o h1 h2 h3 h4 h5 h6
    simp [CMAESOptions.build, h1, Nat.not_lt.mpr h2, not_le.mpr h3, h4, h5, h6]
  · with_unfolding_all rfl

/-- C6 witness: the zero-dimension record fails with the Dimensions
sub-reason. -/
theorem c6_build_invalid_options_witness :
    optsDims0.dimensions = 0 ∧
    optsDims0.build = Except.error InvalidOptionsError.Dimensions :=
  ⟨rfl, c6_build_invalid_options.1 optsDims0 rfl⟩

/-- C10: every setter stores the given value unchanged and touches no other
field, with no validation of any kind; invalid settings (population size 3 or a
negative step size) are detected only by `build`, which then returns the
matching error. -/
theorem c10_setters_store_unvalidated :
    (∀ (o : CMAESOptions) (v : List ℚ), o.setInitialMean v = { o with initial_mean := v }) ∧
    (∀ (o : CMAESOptions) (v : ℚ),
      o.setInitialStepSize v = { o with initial_step_size := v }) ∧
    (∀ (o : CMAESOptions) (v : Nat),
      o.setPopulationSize v = { o with population_size := v }) ∧
    (∀ (o : CMAESOptions) (v : Weights), o.setWeights v = { o with weights := v }) ∧
    (∀ (o : CMAESOptions) (v : ℚ), o.setCm v = { o with cm := v }) ∧
    (∀ (o : CMAESOptions) (v : ℚ), o.setTolFun v = { o with tol_fun := v }) ∧
    (∀ (o : CMAESOptions) (v : ℚ), o.setTolX v = { o with tol_x := some v }) ∧
    (∀ (o : CMAESOptions) (v : Nat), o.setSeed v = { o with seed := some v }) ∧
    (∀ o : CMAESOptions, o.dimensions ≠ 0 →
      (o.setPopulationSize 3).build = .error .PopulationSize) ∧
    (∀ o : CMAESOptions, o.dimensions ≠ 0 → 4 ≤ o.population_size →
      (o.setInitialStepSize (-1)).build = .error .InitialStepSize) := by
  refine ⟨fun o v => rfl, fun o v => rfl, fun o v => rfl, fun o v => rfl, fun o v => rfl,
    fun o v => rfl, fun o v => rfl, fun o v => rfl, ?_, ?_⟩
  · intro o h
    simp [CMAESOptions.setPopulationSize, CMAESOptions.build, h]
  · intro o h1 h2
    have h3 : (-1 : ℚ) ≤ 0 := by norm_num
    simp [CMAESOptions.setInitialStepSize, CMAESOptions.build, h1, Nat.not_lt.mpr h2, h3]

/-- C10 witness: the valid record with population size set to 3 builds to the
PopulationSize error. -/
theorem c10_setters_store_unvalidated_witness :
    optsValid.dimensions ≠ 0 ∧
    (optsValid.setPopulationSize 3).build = Except.error InvalidOptionsError.PopulationSize :=
  ⟨by decide, c10_setters_store_unvalidated.2.2.2.2.2.2.2.2.1 optsValid (by decide)⟩
